import Mathlib

/-!
Verification of the bithoven trade decision and order proposal pipeline.

The JavaScript sources are shallowly embedded: JS numbers that matter to the
claims are modelled as rationals; a JS value that may be `undefined` or `NaN`
is modelled as `Option ℚ` (with `none` standing for undefined/NaN, which
compare `false` against every number, exactly as NaN does), and external
collaborator calls (the `tradeUtil.js` guards, `txGofer.js`, the chain
gateway, and `keccak256`) are passed in as explicit oracle parameters whose
results the actions consume.  Each action returns the ordered list of calls
it makes to the guard layer and to the proposal queue, so that claims about
"proposeOrder is called exactly once" become statements about that trace.
-/

namespace Bithoven

/-- A JS number that may be `undefined` or `NaN`: `none` models both, since
in every comparison the source performs they behave identically (compare
false against everything). -/
abbrev JsNum := Option ℚ

/-- JS `a > b` where `a` may be undefined/NaN and `b` is a number. -/
def jsNumGt (a : JsNum) (b : ℚ) : Bool :=
  match a with
  | some x => decide (b < x)
  | none => false

/-- JS `a >= b` where `a` may be undefined/NaN and `b` is a number. -/
def jsNumGe (a : JsNum) (b : ℚ) : Bool :=
  match a with
  | some x => decide (b ≤ x)
  | none => false

/-- JS `+` with NaN/undefined propagation. -/
def jsNumAdd (a b : JsNum) : JsNum :=
  match a, b with
  | some x, some y => some (x + y)
  | _, _ => none

/-- JS truthiness of a numeric field: `0`, `NaN` and `undefined` are falsy. -/
def truthyNum (a : JsNum) : Bool :=
  match a with
  | some x => decide (x ≠ 0)
  | none => false

/-- JS truthiness of a string field: `undefined` and `""` are falsy
(`!ctx.gamer` in `sellBitFromAutoSelectedFleetKeyImpl`). -/
def truthyStr (a : Option String) : Bool :=
  match a with
  | some s => decide (s ≠ "")
  | none => false

/-- The `total` entry of a P&L report, as consumed by the stop-loss guard
(`pandLResults["total"]["absoluteProfit"]` / `["percentProfit"]`). -/
structure PandLTotal where
  absoluteProfit : JsNum
  percentProfit : JsNum
deriving DecidableEq, Repr

/-- A P&L report as produced by `TradeUtil.computePandL`; only the `total`
aggregate is read by the code under verification. -/
structure PandLReport where
  total : Option PandLTotal
deriving DecidableEq, Repr

/-- `CopyTradeUtil.adjustBuyTargetAmountToMeetConfiguredStopLoss`
(src/common/contractUtil/convertBitsPrice.js, lines 141-178).  The JS
function takes six parameters; all numeric ones may be fed `undefined` by a
caller, hence the `JsNum` types.  `gamer`, `initialPortfolioValuation` and
`targetPortfolioValuation` do not influence the returned value (the source
only uses them in a dead local and in console logging), but they are kept to
mirror the source signature. -/
def adjustBuyTargetAmountToMeetConfiguredStopLoss (gamer : Option String)
    (pandLResults : Option PandLReport)
    (initialPortfolioValuation : JsNum) (targetPortfolioValuation : JsNum)
    (stopLossPercentage : JsNum) (quantity : JsNum) : JsNum :=
  let _ := gamer
  let _ := targetPortfolioValuation
  -- const currentPortfolioValuation = pandLResults && total && absoluteProfit
  --   ? parseFloat(absoluteProfit) + initialPortfolioValuation : initialPortfolioValuation
  let _currentPortfolioValuation : JsNum :=
    match pandLResults with
    | some r =>
      match r.total with
      | some t =>
        if truthyNum t.absoluteProfit then jsNumAdd t.absoluteProfit initialPortfolioValuation
        else initialPortfolioValuation
      | none => initialPortfolioValuation
    | none => initialPortfolioValuation
  -- let currentPandLPercentage = pandLResults && total && percentProfit
  --   ? parseFloat(percentProfit) : 0
  let currentPandLPercentage : ℚ :=
    match pandLResults with
    | some r =>
      match r.total with
      | some t =>
        if truthyNum t.percentProfit then t.percentProfit.getD 0 else 0
      | none => 0
    | none => 0
  -- if (stopLossPercentage > 0) stopLossPercentage = stopLossPercentage * -1
  let stopLossPercentage :=
    if jsNumGt stopLossPercentage 0 then stopLossPercentage.map Neg.neg
    else stopLossPercentage
  -- if (stopLossPercentage >= currentPandLPercentage) return 0 else return quantity
  if jsNumGe stopLossPercentage currentPandLPercentage then some 0 else quantity

/-- The current P&L percentage the stop-loss guard extracts from a report:
`total.percentProfit`, defaulting to 0 whenever the report, its total, or the
field is missing. -/
def pandLCurrentPercent (pandLResults : Option PandLReport) : ℚ :=
  match pandLResults with
  | some r =>
    match r.total with
    | some t => t.percentProfit.getD 0
    | none => 0
  | none => 0

/-- A portfolio entry as stored in `portfolioConfig.json` and carried inside
`ctx.portfolio`.  Fields that only the strategy-not-none setup branch writes
are `Option`s (`none` models an absent JSON field, read back as `undefined`). -/
structure Portfolio where
  portfolioName : String
  keyFleet : List String
  copiedTraderAddress : String
  newPortfolioInitialPositions : Option (List (String × JsNum × ℚ))
  initialPortfolioValuationWei : Option ℚ
  initialPortfolioValuationEthers : Option ℚ
  stopLossPercent : Option ℚ
  copyTradeStrategy : String
deriving DecidableEq, Repr

/-- The rule bound into the context at dispatch time; the actions only read
its `ruleID`. -/
structure BoundRule where
  ruleID : String
deriving DecidableEq, Repr

/-- The invocation context handed to the actions (src/common/actions/actions.js). -/
structure Ctx where
  invokedBy : String
  gamer : Option String
  holder : Option String
  quantity : JsNum
  portfolio : Option Portfolio
  isBuy : Option Bool
  rule : BoundRule
deriving DecidableEq, Repr

/-- Order side. -/
inductive Side where
  | BUY
  | SELL
deriving DecidableEq, Repr

/-- One observable call an action makes into the adjustment/guard layer or
the proposal queue (`txGofer.proposeOrder` / `txGofer.raiseAlert`), recorded
with the arguments the source passes.  Store reads and the P&L computation
preceding a guard call are abstracted into oracle parameters of the
actions. -/
inductive Event where
  | adjustBuyCall (gamer : Option String) (quantity : ℚ)
  | adjustSellCall (gamer : Option String) (holder : Option String) (quantity : JsNum)
  | stopLossCall (gamer : Option String) (stopLossPercentageArg : JsNum) (quantityArg : JsNum)
  | getLargestKeyFleetOwnerCall (gamer : Option String) (portfolioName : Option String)
  | getProposedSumCall (gamer : Option String) (side : Side) (holder : Option String)
  | proposeOrder (gamer : Option String) (side : Side) (quantity : ℚ)
      (ruleID : String) (invokedBy : String) (holder : Option String)
      (portfolioName : Option String)
  | raiseAlert (gamer : Option String) (side : Side)
deriving DecidableEq, Repr

/-- Is the event an order proposal? -/
def Event.isProposeOrder : Event → Bool
  | .proposeOrder _ _ _ _ _ _ _ => true
  | _ => false

/-- Is the event a stagnation alert? -/
def Event.isRaiseAlert : Event → Bool
  | .raiseAlert _ _ => true
  | _ => false

/-- Is the event an alert-precheck (`getProposedSum`) call? -/
def Event.isGetProposedSum : Event → Bool
  | .getProposedSumCall _ _ _ => true
  | _ => false

/-- Number of `proposeOrder` calls in a trace. -/
def proposeCount (tr : List Event) : Nat := tr.countP Event.isProposeOrder

/-- Number of `raiseAlert` calls in a trace. -/
def alertCount (tr : List Event) : Nat := tr.countP Event.isRaiseAlert

/-- Number of `getProposedSum` calls in a trace. -/
def sumCheckCount (tr : List Event) : Nat := tr.countP Event.isGetProposedSum

/-- JS `q <= 0` where `q` is a `parseInt` result (`none` models `NaN`, which
compares false). -/
def jsIntLe0 (q : Option Int) : Bool :=
  match q with
  | some q => decide (q ≤ 0)
  | none => false

/-- `buyUpToImpl` (src/common/actions/actions.js, lines 31-77).
`adjustedQuantity` is the value returned by the external
`TradeUtil.adjustBuyTargetAmount` oracle and `proposedSum` the value returned
by `TradeUtil.getProposedSum`; the action performs no check on `quantity`
before handing it to the guard. -/
def buyUpToImpl (ctx : Ctx) (quantity : ℚ) (adjustedQuantity : ℚ)
    (proposedSum : ℚ) : List Event :=
  let portfolioName :=
    match ctx.portfolio with
    | some pf => pf.portfolioName
    | none => "default"
  Event.adjustBuyCall ctx.gamer quantity ::
    (if adjustedQuantity > 0 then
      [Event.proposeOrder ctx.gamer Side.BUY adjustedQuantity ctx.rule.ruleID
        ctx.invokedBy none (some portfolioName)]
    else
      Event.getProposedSumCall ctx.gamer Side.BUY none ::
        (if proposedSum > 0 then [Event.raiseAlert ctx.gamer Side.BUY] else []))

/-- `copyBuyImpl` (src/common/actions/actions.js, lines 86-171).
`quantity` is the result of `parseInt(quantity, 10)` (`none` models `NaN`);
`pandLResults` is the external `TradeUtil.computePandL` result and
`proposedSum` the external `TradeUtil.getProposedSum` result.  On the
non-initial-fill path the source calls the six-parameter
`adjustBuyTargetAmountToMeetConfiguredStopLoss` with only five arguments, so
the parsed quantity is received as `stopLossPercentage` and the guard's
`quantity` parameter is `undefined`: that argument shift is reproduced
verbatim here. -/
def copyBuyImpl (ctx : Ctx) (quantity : Option Int) (isInitialFill : Bool)
    (pandLResults : Option PandLReport) (proposedSum : ℚ) :
    Except String (List Event) :=
  -- quantity = parseInt(quantity, 10); if (quantity <= 0) throw
  if jsIntLe0 quantity then
    .error "CopyBuyImpl: Quantity must be greater than zero"
  else if ctx.isBuy ≠ some true then
    .ok []
  else
    match ctx.portfolio with
    | none => .error "CopyBuyImpl: ctx should have portfolio object"
    | some pf =>
      let quantityNum : JsNum := quantity.map (fun q => (q : ℚ))
      if isInitialFill then
        -- adjustedQuantity = quantity
        let adjustedQuantity := quantityNum
        if jsNumGt adjustedQuantity 0 then
          .ok [Event.proposeOrder ctx.gamer Side.BUY (adjustedQuantity.getD 0)
            ctx.rule.ruleID ctx.invokedBy none (some pf.portfolioName)]
        else
          .ok (Event.getProposedSumCall ctx.gamer Side.BUY none ::
            (if proposedSum > 0 then [Event.raiseAlert ctx.gamer Side.BUY] else []))
      else
        -- targetPortfolioValuation = initial - initial * stopLossPercent / 100
        let targetPortfolioValuation : JsNum :=
          match pf.initialPortfolioValuationEthers, pf.stopLossPercent with
          | some i, some s => some (i - i * s / 100)
          | _, _ => none
        -- five arguments for six parameters: quantityNum lands in
        -- stopLossPercentage, the trailing quantity parameter is undefined
        let adjustedQuantity :=
          adjustBuyTargetAmountToMeetConfiguredStopLoss ctx.gamer pandLResults
            pf.initialPortfolioValuationEthers targetPortfolioValuation
            quantityNum none
        let trace0 := [Event.stopLossCall ctx.gamer quantityNum none]
        if jsNumGt adjustedQuantity 0 then
          .ok (trace0 ++ [Event.proposeOrder ctx.gamer Side.BUY (adjustedQuantity.getD 0)
            ctx.rule.ruleID ctx.invokedBy none (some pf.portfolioName)])
        else
          .ok (trace0 ++ Event.getProposedSumCall ctx.gamer Side.BUY none ::
            (if proposedSum > 0 then [Event.raiseAlert ctx.gamer Side.BUY] else []))

/-- `copySellImpl` (src/common/actions/actions.js, lines 179-248).
`quantity` is the `parseInt` result; `holder` is the external
`TradeUtil.getLargestKeyFleetOwnerOfGamer` result, `adjustedQuantity` the
external `TradeUtil.adjustSellTargetAmount` result and `proposedSum` the
external `TradeUtil.getProposedSum` result. -/
def copySellImpl (ctx : Ctx) (quantity : Option Int) (holder : String)
    (adjustedQuantity : ℚ) (proposedSum : ℚ) : Except String (List Event) :=
  if jsIntLe0 quantity then
    .error "CopyBuyImpl: Quantity must be greater than zero"
  else if ctx.isBuy ≠ some false then
    .ok []
  else
    match ctx.portfolio with
    | none => .error "CopyBuyImpl: ctx should have portfolio object"
    | some pf =>
      let trace0 :=
        [Event.getLargestKeyFleetOwnerCall ctx.gamer (some pf.portfolioName),
         Event.adjustSellCall ctx.gamer (some holder) (quantity.map (fun q => (q : ℚ)))]
      if adjustedQuantity > 0 then
        .ok (trace0 ++ [Event.proposeOrder ctx.gamer Side.SELL adjustedQuantity
          ctx.rule.ruleID ctx.invokedBy (some holder) (some pf.portfolioName)])
      else
        .ok (trace0 ++ Event.getProposedSumCall ctx.gamer Side.SELL (some holder) ::
          (if proposedSum > 0 then [Event.raiseAlert ctx.gamer Side.SELL] else []))

/-- `sellBitImpl` (src/common/actions/actions.js, lines 255-308).
`ctx.quantity == 0` is JS loose equality, under which `undefined == 0` is
false, so an absent quantity falls through to the guard call. -/
def sellBitImpl (ctx : Ctx) (adjustedQuantity : ℚ) (proposedSum : ℚ) :
    List Event :=
  if ctx.quantity = some 0 then []
  else
    Event.adjustSellCall ctx.gamer ctx.holder ctx.quantity ::
      (if adjustedQuantity > 0 then
        [Event.proposeOrder ctx.gamer Side.SELL adjustedQuantity ctx.rule.ruleID
          ctx.invokedBy ctx.holder none]
      else
        Event.getProposedSumCall ctx.gamer Side.SELL ctx.holder ::
          (if proposedSum > 0 then [Event.raiseAlert ctx.gamer Side.SELL] else []))

/-- Does the string match `/^\d+$/`? -/
def isDigitString (s : String) : Bool :=
  s != "" && s.data.all Char.isDigit

/-- `parseInt(s, 10)` for a string of digits. -/
def digitsToNat (s : String) : Nat :=
  s.data.foldl (fun acc c => acc * 10 + (c.toNat - 48)) 0

/-- `sellBitFromAutoSelectedFleetKeyImpl` (src/common/actions/actions.js,
lines 315-381).  The source throws via the unimported name
`InvalidParameterError`, which at runtime surfaces as a thrown
`ReferenceError`; both validation failures are modelled as errors carrying
the intended message.  `holder` is the external
`TradeUtil.getLargestKeyFleetOwnerOfGamer` result. -/
def sellBitFromAutoSelectedFleetKeyImpl (ctx : Ctx) (amount : String)
    (holder : String) (adjustedQuantity : ℚ) (proposedSum : ℚ) :
    Except String (List Event) :=
  if ¬ isDigitString amount then
    .error "The amount parameter must be a string representation of an integer"
  else if ¬ truthyStr ctx.gamer then
    .error "The ctx object must have gamer field"
  else
    let amountInt : ℚ := (digitsToNat amount : ℚ)
    if amountInt = 0 then .ok []
    else
      let trace0 :=
        [Event.getLargestKeyFleetOwnerCall ctx.gamer none,
         Event.adjustSellCall ctx.gamer (some holder) (some amountInt)]
      if adjustedQuantity > 0 then
        .ok (trace0 ++ [Event.proposeOrder ctx.gamer Side.SELL adjustedQuantity
          ctx.rule.ruleID ctx.invokedBy (some holder) none])
      else
        .ok (trace0 ++ Event.getProposedSumCall ctx.gamer Side.SELL (some holder) ::
          (if proposedSum > 0 then [Event.raiseAlert ctx.gamer Side.SELL] else []))

/-- `CopyTradeUtil.calculateInitialPositions`
(src/common/trade/copyTradeUtil.js, lines 22-80).  The chain gateway is
abstracted by two oracles: `getBuyPriceWei` for `getBuyPrice` and
`weiToEthers` for `convertBitsPriceWeiToEther`.  A strategy other than
`min`/`mid`/`all`/`none` leaves the per-position quantity `undefined`
(`none`), as in the source. -/
def calculateInitialPositions (getBuyPriceWei : String → JsNum → ℚ)
    (weiToEthers : ℚ → ℚ) (copiedTraderPositions : List (String × ℚ))
    (copyStrategy : String) :
    Except String (List (String × JsNum × ℚ) × JsNum × ℚ × ℚ) :=
  if copyStrategy = "none" then .error "Copy trade strategy is none"
  else
    let step := fun (acc : List (String × JsNum × ℚ) × JsNum × ℚ × ℚ)
        (position : String × ℚ) =>
      let gamerAddress := position.1
      let quantity : JsNum :=
        if copyStrategy = "min" then some 1
        else if copyStrategy = "mid" then some ((⌈position.2 / 2⌉ : ℤ) : ℚ)
        else if copyStrategy = "all" then some position.2
        else none
      let buyPriceInWei := getBuyPriceWei gamerAddress quantity
      let buyPriceInEthers := weiToEthers buyPriceInWei
      (acc.1 ++ [(gamerAddress, quantity, buyPriceInEthers)],
        jsNumAdd acc.2.1 quantity,
        acc.2.2.1 + buyPriceInWei,
        acc.2.2.2 + buyPriceInEthers)
    .ok (copiedTraderPositions.foldl step ([], some 0, 0, 0))

/-- A trade rule record as stored in `buyRules.json` / `sellRules.json`; a
condition is kept as its expression string, matching the JSON shape
`\x7b "expression": ... \x7d`. -/
structure TradeRule where
  ruleID : String
  invokeBy : List String
  conditionExpressions : List String
  action : String
deriving DecidableEq, Repr

/-- `JSON.stringify` of a rule record, in the key order the setup script
constructs (src/scripts/setupCopyTradePortfolio.js, lines 333-353). -/
def serializeRule (r : TradeRule) : String :=
  "\x7b\"ruleID\":\"" ++ r.ruleID ++ "\",\"invokeBy\":[" ++
    String.intercalate "," (r.invokeBy.map (fun s => "\"" ++ s ++ "\"")) ++
    "],\"conditions\":[" ++
    String.intercalate ","
      (r.conditionExpressions.map
        (fun e => "\x7b\"expression\":\"" ++ e ++ "\"\x7d")) ++
    "],\"action\":\"" ++ r.action ++ "\"\x7d"

/-- The `copyTradeBuy` rule the setup script generates for a portfolio
(src/scripts/setupCopyTradePortfolio.js, lines 333-342). -/
def copyBuyRule (portfolioName : String) : TradeRule where
  ruleID := "copyTradeBuy"
  invokeBy := ["chainIndexer"]
  conditionExpressions := ["copyTrade(" ++ portfolioName ++ ")"]
  action := "copyBuy(COPY_QTY, false)"

/-- The `copyTradeSell` rule the setup script generates for a portfolio
(src/scripts/setupCopyTradePortfolio.js, lines 344-353). -/
def copySellRule (portfolioName : String) : TradeRule where
  ruleID := "copyTradeSell"
  invokeBy := ["chainIndexer"]
  conditionExpressions := ["copyTrade(" ++ portfolioName ++ ")"]
  action := "copySell(COPY_QTY)"

/-- The append step of `setupCopyTradePortfolio` for one rule list
(src/scripts/setupCopyTradePortfolio.js, lines 355-397): compute the
keccak256 hash of the serialized new rule, scan the list for an entry with
the same hash, and append only when none is found.
`keccak` abstracts `ethers.utils.keccak256 ∘ toUtf8Bytes`. -/
def appendRuleIfHashAbsent (keccak : String → String) (rules : List TradeRule)
    (newRule : TradeRule) : List TradeRule :=
  let hashOfNewRule := keccak (serializeRule newRule)
  if rules.any (fun r => keccak (serializeRule r) = hashOfNewRule) then rules
  else rules ++ [newRule]

/-- Both rule-list append steps of the setup flow, as a function of the
portfolio name (the generated rules depend only on it). -/
def appendCopyTradeRules (keccak : String → String) (portfolioName : String)
    (ruleLists : List TradeRule × List TradeRule) :
    List TradeRule × List TradeRule :=
  (appendRuleIfHashAbsent keccak ruleLists.1 (copyBuyRule portfolioName),
   appendRuleIfHashAbsent keccak ruleLists.2 (copySellRule portfolioName))

/-- `String.prototype.trim`: strip leading and trailing whitespace, defined
structurally over the character list so that concrete runs evaluate. -/
def jsTrim (s : String) : String :=
  ⟨((s.data.dropWhile Char.isWhitespace).reverse.dropWhile
    Char.isWhitespace).reverse⟩

/-- `areAddressesUnique` (src/scripts/setupCopyTradePortfolio.js, lines
46-64).  The JS `Set` of already-used fleet addresses is modelled by the
list of its elements (`has` = list membership); `new Set(keyFleet).size !==
keyFleet.length` is modelled by comparing `keyFleet` with its
deduplication. -/
def areAddressesUnique (keyFleet : List String)
    (existingData : List Portfolio) : Bool :=
  let existingAddresses : List String :=
    existingData.foldl (fun acc entry => acc ++ entry.keyFleet) []
  if keyFleet.dedup.length ≠ keyFleet.length then false
  else if keyFleet.any (fun address => decide (address ∈ existingAddresses)) then
    false
  else true

/-- The trace of a non-throwing action run (`[]` for a thrown run). -/
def okTrace (r : Except String (List Event)) : List Event :=
  match r with
  | .ok t => t
  | .error _ => []

/-- Modelled from the spec: `TradeUtil.adjustBuyTargetAmount` lives in
`src/common/trade/tradeUtil.js`, which is not part of the provided sources
(only its callers are).  Spec 4.2: it "clamps the requested buy quantity
against any global buy constraints (e.g., a maximum per-subject exposure) —
returns 0 if no safe quantity remains", returning a non-negative integer
quantity.  We model the global constraint as a remaining-cap parameter and
the clamp as `min`, floored at 0 so the result is never negative. -/
def adjustBuyTargetAmount (remainingCap : ℚ) (requestedQty : ℚ) : ℚ :=
  if requestedQty ≤ 0 then 0 else min requestedQty remainingCap

/-- Outcome of one run of the setup script.  The exit constructors carry no
written state: the corresponding `process.exit(1)` calls happen before any
`writeJsonFile`. -/
inductive SetupOutcome where
  | exitDuplicateAddresses
  | exitNoPositions
  | strategyError (msg : String)
  | awaitAck (newPortfolioConfig : List Portfolio)
      (newBuyRules newSellRules : List TradeRule)
  | doneNone (newPortfolioConfig : List Portfolio)
deriving DecidableEq, Repr

/-- The prompt answers consumed by the setup script (already split and
prompt-validated, as delivered by the `prompts` library). -/
structure SetupPrompts where
  portfolioName : String
  keyFleet : List String
  copiedTraderAddress : String
  copyTradeStrategy : String
  stopLossPercent : ℚ
deriving DecidableEq, Repr

/-- `setupCopyTradePortfolio` (src/scripts/setupCopyTradePortfolio.js, lines
71-448), modelled as a function of the prompt answers, the existing
portfolio config, the position store view (`storeHasPositions` mirrors the
three-way emptiness check on `fullStore`, `copiedTraderPositions` the
quantities subsequently read from it), the current rule lists, and the
external keccak / chain-price oracles.  The trailing socket handshake of the
strategy-not-none branch is summarized by the `awaitAck` outcome, which
carries exactly the states written before the script starts waiting. -/
def setupCopyTradePortfolio (keccak : String → String)
    (getBuyPriceWei : String → JsNum → ℚ) (weiToEthers : ℚ → ℚ)
    (inp : SetupPrompts) (existingPortfolioData : List Portfolio)
    (storeHasPositions : Bool) (copiedTraderPositions : List (String × ℚ))
    (buyRules sellRules : List TradeRule) : SetupOutcome :=
  if ¬ areAddressesUnique inp.keyFleet existingPortfolioData then
    .exitDuplicateAddresses
  else if ¬ storeHasPositions then
    .exitNoPositions
  else if inp.copyTradeStrategy ≠ "none" then
    match calculateInitialPositions getBuyPriceWei weiToEthers
        copiedTraderPositions inp.copyTradeStrategy with
    | .error e => .strategyError e
    | .ok (calculatedInitialPositions, _totalQuantity, totalBuyPriceInWei,
        totalBuyPriceInEthers) =>
      let newPortfolioEntry : Portfolio :=
        { portfolioName := inp.portfolioName
          keyFleet := inp.keyFleet.map (fun address => jsTrim address)
          copiedTraderAddress := inp.copiedTraderAddress
          newPortfolioInitialPositions := some calculatedInitialPositions
          initialPortfolioValuationWei := some totalBuyPriceInWei
          initialPortfolioValuationEthers := some totalBuyPriceInEthers
          stopLossPercent := some inp.stopLossPercent
          copyTradeStrategy := inp.copyTradeStrategy }
      let ruleLists := appendCopyTradeRules keccak inp.portfolioName
        (buyRules, sellRules)
      .awaitAck (existingPortfolioData ++ [newPortfolioEntry]) ruleLists.1
        ruleLists.2
  else
    let newPortfolioEntry : Portfolio :=
      { portfolioName := inp.portfolioName
        keyFleet := inp.keyFleet.map (fun address => jsTrim address)
        copiedTraderAddress := inp.copiedTraderAddress
        newPortfolioInitialPositions := none
        initialPortfolioValuationWei := none
        initialPortfolioValuationEthers := none
        stopLossPercent := none
        copyTradeStrategy := inp.copyTradeStrategy }
    .doneNone (existingPortfolioData ++ [newPortfolioEntry])

/-! ## Concrete sample data used by counterexamples and failing-input evaluations -/

/-- A portfolio with initial valuation 100 ethers and a 5% stop loss. -/
def samplePortfolio : Portfolio where
  portfolioName := "alpha"
  keyFleet := ["0xW1"]
  copiedTraderAddress := "0xT"
  newPortfolioInitialPositions := some []
  initialPortfolioValuationWei := some 100000000000000000000
  initialPortfolioValuationEthers := some 100
  stopLossPercent := some 5
  copyTradeStrategy := "mid"

/-- A well-formed copy-buy context for `samplePortfolio`. -/
def sampleBuyCtx : Ctx where
  invokedBy := "chainIndexer"
  gamer := some "0xG"
  holder := none
  quantity := none
  portfolio := some samplePortfolio
  isBuy := some true
  rule := { ruleID := "copyTradeBuy" }

/-- A P&L report whose aggregate is up 6%. -/
def sampleUpSixReport : PandLReport where
  total := some { absoluteProfit := some 6, percentProfit := some 6 }

/-- A P&L report whose aggregate is down 7%. -/
def sampleDownSevenReport : PandLReport where
  total := some { absoluteProfit := some (-7), percentProfit := some (-7) }

/-- A well-formed sell context for `samplePortfolio`. -/
def sampleSellCtx : Ctx where
  invokedBy := "chainIndexer"
  gamer := some "0xG"
  holder := some "0xH"
  quantity := some 5
  portfolio := some samplePortfolio
  isBuy := some false
  rule := { ruleID := "copyTradeSell" }

/-- A context with no direction flag and no portfolio. -/
def sampleNoDirectionCtx : Ctx where
  invokedBy := "chainIndexer"
  gamer := some "0xG"
  holder := none
  quantity := none
  portfolio := none
  isBuy := none
  rule := { ruleID := "copyTradeBuy" }

/-- A buy-direction context with no portfolio. -/
def sampleNoPortfolioBuyCtx : Ctx where
  invokedBy := "chainIndexer"
  gamer := some "0xG"
  holder := none
  quantity := none
  portfolio := none
  isBuy := some true
  rule := { ruleID := "copyTradeBuy" }

/-- A sell-direction context with no portfolio. -/
def sampleNoPortfolioSellCtx : Ctx where
  invokedBy := "chainIndexer"
  gamer := some "0xG"
  holder := none
  quantity := none
  portfolio := none
  isBuy := some false
  rule := { ruleID := "copyTradeSell" }

/-- A context whose `gamer` field is absent. -/
def sampleNoGamerCtx : Ctx where
  invokedBy := "chainIndexer"
  gamer := none
  holder := none
  quantity := none
  portfolio := some samplePortfolio
  isBuy := some false
  rule := { ruleID := "sellBitThreshold" }

/-! ## Claim theorems -/

/-- C1: for `copyBuyImpl` with `isInitialFill = false`, `ctx.isBuy = true`,
a portfolio present and requested quantity `q > 0`, when the stop-loss is
not breached (`-stopLossPercent < currentPercent`, here `-5 < 6`) the claim
says `proposeOrder` is called exactly once with side BUY and quantity `q`.
The code instead passes five arguments to the six-parameter guard, so the
guard receives `q` as `stopLossPercentage` and `undefined` as its quantity,
returns `undefined`, and the action never proposes: at this failing input
the run performs only the guard call and the alert precheck, with zero
`proposeOrder` calls. -/
theorem c1_stopLoss_pass_never_proposes :
    -(5 : ℚ) < 6 ∧
    copyBuyImpl sampleBuyCtx (some 1) false (some sampleUpSixReport) 0 =
      .ok [Event.stopLossCall (some "0xG") (some 1) none,
        Event.getProposedSumCall (some "0xG") Side.BUY none] ∧
    proposeCount
      (okTrace (copyBuyImpl sampleBuyCtx (some 1) false
        (some sampleUpSixReport) 0)) = 0 := by
  refine ⟨by norm_num, by rfl, by rfl⟩

/-- C2: `adjustBuyTargetAmountToMeetConfiguredStopLoss` normalizes a
positive `stopLossPercent` to its negation, reads the current percent from
`pandLResults.total.percentProfit` defaulting to 0 when the report or the
entry is missing, returns 0 when the normalized stop-loss is ≥ the current
percent and the requested quantity unchanged otherwise — a pass/fail gate
whose result is always `0` or the requested quantity. -/
theorem c2_stopLoss_gate_pass_fail :
    ∀ (g : Option String) (p : Option PandLReport) (iv tv : JsNum)
      (slp q : ℚ),
      (adjustBuyTargetAmountToMeetConfiguredStopLoss g p iv tv (some slp)
          (some q) =
        if (if 0 < slp then -slp else slp) ≥ pandLCurrentPercent p then
          some 0
        else some q) ∧
      (adjustBuyTargetAmountToMeetConfiguredStopLoss g p iv tv (some slp)
          (some q) = some 0 ∨
        adjustBuyTargetAmountToMeetConfiguredStopLoss g p iv tv (some slp)
          (some q) = some q) ∧
      pandLCurrentPercent none = 0 ∧
      pandLCurrentPercent (some { total := none }) = 0 := by
  intro g p iv tv slp q
  have hmain :
      adjustBuyTargetAmountToMeetConfiguredStopLoss g p iv tv (some slp)
          (some q) =
        if (if 0 < slp then -slp else slp) ≥ pandLCurrentPercent p then
          some 0
        else some q := by
    have hnorm : ∀ c : ℚ,
        jsNumGe
          (if jsNumGt (some slp) 0 then some (-slp) else some slp)
          c = decide (c ≤ if 0 < slp then -slp else slp) := by
      intro c
      by_cases hs : 0 < slp <;> simp [jsNumGt, jsNumGe, hs]
    unfold adjustBuyTargetAmountToMeetConfiguredStopLoss pandLCurrentPercent
    rcases p with _ | r
    · simp [hnorm]
    · rcases r with ⟨_ | t⟩
      · simp [hnorm]
      · rcases t with ⟨ap, _ | pp⟩
        · simp [hnorm, truthyNum]
        · by_cases hpp : pp = 0 <;> simp [hnorm, truthyNum, hpp]
  refine ⟨hmain, ?_, rfl, rfl⟩
  rw [hmain]
  by_cases hc :
      (if 0 < slp then -slp else slp) ≥ pandLCurrentPercent p <;>
    simp [hc]

/-- C3 counterexample: the claim says that with `stopLossPercent = 5` and a
total `percentProfit` of 4 the adjusted quantity is 0.  On the code the
stop-loss is normalized to `-5` before the comparison, `-5 ≥ 4` is false,
and the requested quantity 7 is returned unchanged. -/
theorem c3_counterexample_percent_four_passes :
    adjustBuyTargetAmountToMeetConfiguredStopLoss (some "0xG")
        (some { total := some { absoluteProfit := some 4, percentProfit := some 4 } })
        (some 100) (some 95) (some 5) (some 7) = some 7 ∧
    adjustBuyTargetAmountToMeetConfiguredStopLoss (some "0xG")
        (some { total := some { absoluteProfit := some 4, percentProfit := some 4 } })
        (some 100) (some 95) (some 5) (some 7) ≠ some 0 := by
  refine ⟨by rfl, by decide⟩

/-- C3 amended: with `stopLossPercent = 5` the gate compares the normalized
`-5` against the current percent, so a total `percentProfit` of 4 — like one
of 6 — returns the requested quantity unchanged; 0 is returned only when the
current percent is at most `-5`, for instance at `percentProfit = -6`. -/
theorem c3_stop_loss_gate_at_five_percent :
    ∀ (g : Option String) (iv tv ap : JsNum) (q : ℚ),
      adjustBuyTargetAmountToMeetConfiguredStopLoss g
          (some { total := some { absoluteProfit := ap, percentProfit := some 4 } })
          iv tv (some 5) (some q) = some q ∧
      adjustBuyTargetAmountToMeetConfiguredStopLoss g
          (some { total := some { absoluteProfit := ap, percentProfit := some 6 } })
          iv tv (some 5) (some q) = some q ∧
      adjustBuyTargetAmountToMeetConfiguredStopLoss g
          (some { total := some { absoluteProfit := ap, percentProfit := some (-6) } })
          iv tv (some 5) (some q) = some 0 := by
  intro g iv tv ap q
  refine ⟨?_, ?_, ?_⟩ <;>
    simp [adjustBuyTargetAmountToMeetConfiguredStopLoss, jsNumGt, jsNumGe,
      truthyNum] <;>
    norm_num

/-- C4 counterexample: the claim says that for requested BUY quantity
`q ≤ 0` the guard is never invoked and no alert check is attempted.
`buyUpToImpl` performs no quantity precheck: at `q = 0` its trace records the
guard call `adjustBuyCall` with quantity 0 and, the (spec-modelled) clamp
having returned 0, the alert precheck `getProposedSumCall`. -/
theorem c4_counterexample_buyUpTo_zero_quantity :
    buyUpToImpl sampleBuyCtx 0 (adjustBuyTargetAmount 10 0) 0 =
      [Event.adjustBuyCall (some "0xG") 0,
        Event.getProposedSumCall (some "0xG") Side.BUY none] ∧
    adjustBuyTargetAmount 10 0 = 0 := by
  refine ⟨by rfl, by rfl⟩

/-- C4 amended: `copyBuyImpl` with parsed quantity `q ≤ 0` throws before any
guard, proposal, or alert activity; `buyUpToImpl`, by contrast, performs no
quantity precheck — it invokes the buy guard with the raw quantity even when
`q ≤ 0`, and since the clamp then returns 0, no proposal is created but the
alert check (`getProposedSum`) is attempted. -/
theorem c4_non_positive_buy_quantity :
    (∀ (ctx : Ctx) (q : Int) (isInitialFill : Bool)
        (p : Option PandLReport) (proposedSum : ℚ), q ≤ 0 →
      copyBuyImpl ctx (some q) isInitialFill p proposedSum =
        .error "CopyBuyImpl: Quantity must be greater than zero") ∧
    (∀ (ctx : Ctx) (q cap proposedSum : ℚ), q ≤ 0 →
      buyUpToImpl ctx q (adjustBuyTargetAmount cap q) proposedSum =
        Event.adjustBuyCall ctx.gamer q ::
          Event.getProposedSumCall ctx.gamer Side.BUY none ::
          (if proposedSum > 0 then [Event.raiseAlert ctx.gamer Side.BUY]
            else []) ∧
      proposeCount
        (buyUpToImpl ctx q (adjustBuyTargetAmount cap q) proposedSum) = 0) := by
  constructor
  · intro ctx q isInitialFill p proposedSum hq
    simp [copyBuyImpl, jsIntLe0, hq]
  · intro ctx q cap proposedSum hq
    have hadj : adjustBuyTargetAmount cap q = 0 := by
      simp [adjustBuyTargetAmount, hq]
    constructor
    · simp [buyUpToImpl, hadj]
    · by_cases hs : proposedSum > 0 <;>
        simp [buyUpToImpl, hadj, hs, proposeCount, Event.isProposeOrder]

/-- C4 witness: the amended statements hold at a concrete run with
`q = -2`. -/
theorem c4_non_positive_buy_quantity_witness :
    copyBuyImpl sampleBuyCtx (some (-2)) false none 0 =
      .error "CopyBuyImpl: Quantity must be greater than zero" ∧
    proposeCount (buyUpToImpl sampleBuyCtx (-2) (adjustBuyTargetAmount 10 (-2)) 0) = 0 := by
  exact ⟨c4_non_positive_buy_quantity.1 sampleBuyCtx (-2) false none 0
      (by norm_num),
    (c4_non_positive_buy_quantity.2 sampleBuyCtx (-2) 10 0 (by norm_num)).2⟩

/-- C5: for every action, whenever the guard produced an adjusted quantity
of 0 (and the action's prechecks let control reach the guard), no order is
proposed, and `raiseAlert` is called exactly once when the `getProposedSum`
oracle returns a positive sum and not at all when it returns 0 — the trace
contains exactly one `getProposedSum` precheck and zero `proposeOrder`
calls. -/
theorem c5_guard_zero_discipline :
    (∀ (ctx : Ctx) (quantity proposedSum : ℚ),
      proposeCount (buyUpToImpl ctx quantity 0 proposedSum) = 0 ∧
      alertCount (buyUpToImpl ctx quantity 0 proposedSum) =
        (if 0 < proposedSum then 1 else 0) ∧
      sumCheckCount (buyUpToImpl ctx quantity 0 proposedSum) = 1) ∧
    (∀ (ctx : Ctx) (pf : Portfolio) (q : Int) (p : Option PandLReport)
        (proposedSum : ℚ), 0 < q → ctx.isBuy = some true →
      ctx.portfolio = some pf →
      adjustBuyTargetAmountToMeetConfiguredStopLoss ctx.gamer p
          pf.initialPortfolioValuationEthers
          (match pf.initialPortfolioValuationEthers, pf.stopLossPercent with
            | some i, some s => some (i - i * s / 100)
            | _, _ => none)
          (some (q : ℚ)) none = some 0 →
      proposeCount (okTrace (copyBuyImpl ctx (some q) false p proposedSum)) = 0 ∧
      alertCount (okTrace (copyBuyImpl ctx (some q) false p proposedSum)) =
        (if 0 < proposedSum then 1 else 0) ∧
      sumCheckCount (okTrace (copyBuyImpl ctx (some q) false p proposedSum)) = 1) ∧
    (∀ (ctx : Ctx) (pf : Portfolio) (q : Int) (holder : String)
        (proposedSum : ℚ), 0 < q → ctx.isBuy = some false →
      ctx.portfolio = some pf →
      proposeCount (okTrace (copySellImpl ctx (some q) holder 0 proposedSum)) = 0 ∧
      alertCount (okTrace (copySellImpl ctx (some q) holder 0 proposedSum)) =
        (if 0 < proposedSum then 1 else 0) ∧
      sumCheckCount (okTrace (copySellImpl ctx (some q) holder 0 proposedSum)) = 1) ∧
    (∀ (ctx : Ctx) (proposedSum : ℚ), ctx.quantity ≠ some 0 →
      proposeCount (sellBitImpl ctx 0 proposedSum) = 0 ∧
      alertCount (sellBitImpl ctx 0 proposedSum) =
        (if 0 < proposedSum then 1 else 0) ∧
      sumCheckCount (sellBitImpl ctx 0 proposedSum) = 1) ∧
    (∀ (ctx : Ctx) (amount holder : String) (proposedSum : ℚ),
      isDigitString amount = true → truthyStr ctx.gamer = true →
      digitsToNat amount ≠ 0 →
      proposeCount (okTrace
        (sellBitFromAutoSelectedFleetKeyImpl ctx amount holder 0 proposedSum)) = 0 ∧
      alertCount (okTrace
        (sellBitFromAutoSelectedFleetKeyImpl ctx amount holder 0 proposedSum)) =
        (if 0 < proposedSum then 1 else 0) ∧
      sumCheckCount (okTrace
        (sellBitFromAutoSelectedFleetKeyImpl ctx amount holder 0 proposedSum)) = 1) := by
  refine ⟨?_, ?_, ?_, ?_, ?_⟩
  · intro ctx quantity proposedSum
    by_cases hs : 0 < proposedSum <;>
      simp [buyUpToImpl, hs, proposeCount, alertCount, sumCheckCount,
        Event.isProposeOrder, Event.isRaiseAlert, Event.isGetProposedSum]
  · intro ctx pf q p proposedSum hq hbuy hpf hg
    have hq0 : ¬ q ≤ 0 := not_le.mpr hq
    by_cases hs : 0 < proposedSum <;>
      simp [copyBuyImpl, jsIntLe0, hq0, hbuy, hpf, hg, jsNumGt, hs, okTrace,
        proposeCount, alertCount, sumCheckCount, Event.isProposeOrder,
        Event.isRaiseAlert, Event.isGetProposedSum]
  · intro ctx pf q holder proposedSum hq hsell hpf
    have hq0 : ¬ q ≤ 0 := not_le.mpr hq
    by_cases hs : 0 < proposedSum <;>
      simp [copySellImpl, jsIntLe0, hq0, hsell, hpf, hs, okTrace, proposeCount,
        alertCount, sumCheckCount, Event.isProposeOrder, Event.isRaiseAlert,
        Event.isGetProposedSum]
  · intro ctx proposedSum hnz
    by_cases hs : 0 < proposedSum <;>
      simp [sellBitImpl, hnz, hs, proposeCount, alertCount, sumCheckCount,
        Event.isProposeOrder, Event.isRaiseAlert, Event.isGetProposedSum]
  · intro ctx amount holder proposedSum hdig hgamer hnz
    have hnzq : ¬ ((digitsToNat amount : ℚ) = 0) := by
      exact_mod_cast hnz
    by_cases hs : 0 < proposedSum <;>
      simp [sellBitFromAutoSelectedFleetKeyImpl, hdig, hgamer, hnzq, hs,
        okTrace, proposeCount, alertCount, sumCheckCount,
        Event.isProposeOrder, Event.isRaiseAlert, Event.isGetProposedSum]

/-- C5 witness: the discipline at concrete runs of all five actions. -/
theorem c5_guard_zero_discipline_witness :
    alertCount (buyUpToImpl sampleBuyCtx 4 0 1) = (if (0:ℚ) < 1 then 1 else 0) ∧
    proposeCount (okTrace
      (copyBuyImpl sampleBuyCtx (some 1) false (some sampleDownSevenReport) 1)) = 0 ∧
    sumCheckCount (okTrace (copySellImpl sampleSellCtx (some 5) "0xH" 0 0)) = 1 ∧
    alertCount (sellBitImpl sampleSellCtx 0 0) = (if (0:ℚ) < 0 then 1 else 0) ∧
    proposeCount (okTrace
      (sellBitFromAutoSelectedFleetKeyImpl sampleSellCtx "3" "0xH" 0 1)) = 0 := by
  refine ⟨(c5_guard_zero_discipline.1 sampleBuyCtx 4 1).2.1,
    (c5_guard_zero_discipline.2.1 sampleBuyCtx samplePortfolio 1
      (some sampleDownSevenReport) 1 (by decide) (by rfl) (by rfl) (by rfl)).1,
    (c5_guard_zero_discipline.2.2.1 sampleSellCtx samplePortfolio 5 "0xH" 0
      (by decide) (by rfl) (by rfl)).2.2,
    (c5_guard_zero_discipline.2.2.2.1 sampleSellCtx 0 (by decide)).2.1,
    (c5_guard_zero_discipline.2.2.2.2 sampleSellCtx "3" "0xH" 1 (by rfl)
      (by rfl) (by decide)).1⟩

/-- C6 counterexample: the claim says `copyBuyImpl` with `ctx.portfolio`
absent throws a descriptive error.  When the direction flag does not match
(`ctx.isBuy ≠ true` — here absent), the action returns silently instead,
even though the portfolio is absent, because the direction check precedes
the portfolio check. -/
theorem c6_counterexample_no_throw_on_direction_mismatch :
    copyBuyImpl sampleNoDirectionCtx (some 5) false none 0 = .ok [] ∧
    sampleNoDirectionCtx.portfolio = none := by
  refine ⟨by rfl, by rfl⟩

/-- C6 amended: `copyBuyImpl`/`copySellImpl` with a non-positive parsed
quantity, or with a matching direction flag and `ctx.portfolio` absent,
throw before any queue call; `sellBitFromAutoSelectedFleetKeyImpl` with a
non-digit-string amount or an absent gamer throws before any queue call;
but with a non-matching direction flag `copyBuyImpl` and `copySellImpl`
return silently without throwing.  In every such case the Proposal Queue is
never reached. -/
theorem c6_malformed_ctx_fail_fast :
    (∀ (ctx : Ctx) (q : Int) (isInitialFill : Bool) (p : Option PandLReport)
        (proposedSum : ℚ), q ≤ 0 →
      copyBuyImpl ctx (some q) isInitialFill p proposedSum =
        .error "CopyBuyImpl: Quantity must be greater than zero") ∧
    (∀ (ctx : Ctx) (q : Int) (holder : String) (adjustedQuantity proposedSum : ℚ),
        q ≤ 0 →
      copySellImpl ctx (some q) holder adjustedQuantity proposedSum =
        .error "CopyBuyImpl: Quantity must be greater than zero") ∧
    (∀ (ctx : Ctx) (q : Int) (isInitialFill : Bool) (p : Option PandLReport)
        (proposedSum : ℚ), 0 < q → ctx.isBuy = some true →
        ctx.portfolio = none →
      copyBuyImpl ctx (some q) isInitialFill p proposedSum =
        .error "CopyBuyImpl: ctx should have portfolio object") ∧
    (∀ (ctx : Ctx) (q : Int) (holder : String) (adjustedQuantity proposedSum : ℚ),
        0 < q → ctx.isBuy = some false → ctx.portfolio = none →
      copySellImpl ctx (some q) holder adjustedQuantity proposedSum =
        .error "CopyBuyImpl: ctx should have portfolio object") ∧
    (∀ (ctx : Ctx) (q : Int) (isInitialFill : Bool) (p : Option PandLReport)
        (proposedSum : ℚ), 0 < q → ctx.isBuy ≠ some true →
      copyBuyImpl ctx (some q) isInitialFill p proposedSum = .ok []) ∧
    (∀ (ctx : Ctx) (q : Int) (holder : String) (adjustedQuantity proposedSum : ℚ),
        0 < q → ctx.isBuy ≠ some false →
      copySellImpl ctx (some q) holder adjustedQuantity proposedSum = .ok []) ∧
    (∀ (ctx : Ctx) (amount holder : String) (adjustedQuantity proposedSum : ℚ),
        isDigitString amount = false →
      sellBitFromAutoSelectedFleetKeyImpl ctx amount holder adjustedQuantity
          proposedSum =
        .error "The amount parameter must be a string representation of an integer") ∧
    (∀ (ctx : Ctx) (amount holder : String) (adjustedQuantity proposedSum : ℚ),
        isDigitString amount = true → truthyStr ctx.gamer = false →
      sellBitFromAutoSelectedFleetKeyImpl ctx amount holder adjustedQuantity
          proposedSum = .error "The ctx object must have gamer field") := by
  refine ⟨?_, ?_, ?_, ?_, ?_, ?_, ?_, ?_⟩
  · intro ctx q isInitialFill p proposedSum hq
    simp [copyBuyImpl, jsIntLe0, hq]
  · intro ctx q holder adjustedQuantity proposedSum hq
    simp [copySellImpl, jsIntLe0, hq]
  · intro ctx q isInitialFill p proposedSum hq hbuy hpf
    simp [copyBuyImpl, jsIntLe0, not_le.mpr hq, hbuy, hpf]
  · intro ctx q holder adjustedQuantity proposedSum hq hsell hpf
    simp [copySellImpl, jsIntLe0, not_le.mpr hq, hsell, hpf]
  · intro ctx q isInitialFill p proposedSum hq hbuy
    simp [copyBuyImpl, jsIntLe0, not_le.mpr hq, hbuy]
  · intro ctx q holder adjustedQuantity proposedSum hq hsell
    simp [copySellImpl, jsIntLe0, not_le.mpr hq, hsell]
  · intro ctx amount holder adjustedQuantity proposedSum hdig
    simp [sellBitFromAutoSelectedFleetKeyImpl, hdig]
  · intro ctx amount holder adjustedQuantity proposedSum hdig hgamer
    simp [sellBitFromAutoSelectedFleetKeyImpl, hdig, hgamer]

/-- C6 witness: each fail-fast (and silent-return) case at a concrete
input. -/
theorem c6_malformed_ctx_fail_fast_witness :
    copyBuyImpl sampleBuyCtx (some 0) false none 0 =
      .error "CopyBuyImpl: Quantity must be greater than zero" ∧
    copySellImpl sampleSellCtx (some (-1)) "0xH" 0 0 =
      .error "CopyBuyImpl: Quantity must be greater than zero" ∧
    copyBuyImpl sampleNoPortfolioBuyCtx (some 5) false none 0 =
      .error "CopyBuyImpl: ctx should have portfolio object" ∧
    copySellImpl sampleNoPortfolioSellCtx (some 5) "0xH" 0 0 =
      .error "CopyBuyImpl: ctx should have portfolio object" ∧
    copyBuyImpl sampleNoDirectionCtx (some 5) true none 0 = .ok [] ∧
    copySellImpl sampleBuyCtx (some 5) "0xH" 0 0 = .ok [] ∧
    sellBitFromAutoSelectedFleetKeyImpl sampleSellCtx "12x" "0xH" 0 0 =
      .error "The amount parameter must be a string representation of an integer" ∧
    sellBitFromAutoSelectedFleetKeyImpl sampleNoGamerCtx "3" "0xH" 0 0 =
      .error "The ctx object must have gamer field" := by
  refine ⟨c6_malformed_ctx_fail_fast.1 sampleBuyCtx 0 false none 0 (by decide),
    c6_malformed_ctx_fail_fast.2.1 sampleSellCtx (-1) "0xH" 0 0 (by decide),
    c6_malformed_ctx_fail_fast.2.2.1 sampleNoPortfolioBuyCtx 5 false none 0
      (by decide) (by rfl) (by rfl),
    c6_malformed_ctx_fail_fast.2.2.2.1 sampleNoPortfolioSellCtx 5 "0xH" 0 0
      (by decide) (by rfl) (by rfl),
    c6_malformed_ctx_fail_fast.2.2.2.2.1 sampleNoDirectionCtx 5 true none 0
      (by decide) (by decide),
    c6_malformed_ctx_fail_fast.2.2.2.2.2.1 sampleBuyCtx 5 "0xH" 0 0
      (by decide) (by decide),
    c6_malformed_ctx_fail_fast.2.2.2.2.2.2.1 sampleSellCtx "12x" "0xH" 0 0
      (by rfl),
    c6_malformed_ctx_fail_fast.2.2.2.2.2.2.2 sampleNoGamerCtx "3" "0xH" 0 0
      (by rfl) (by rfl)⟩

/-- C10: for every positive parsed quantity, `copyBuyImpl` invoked with
`ctx.isBuy ≠ true` and `copySellImpl` invoked with `ctx.isBuy ≠ false`
return silently — no throw, no proposed order, no alert — regardless of
whether `ctx.portfolio` is present, because the direction check precedes
the portfolio check. -/
theorem c10_direction_mismatch_silent :
    (∀ (ctx : Ctx) (q : Int) (isInitialFill : Bool) (p : Option PandLReport)
        (proposedSum : ℚ), 0 < q → ctx.isBuy ≠ some true →
      copyBuyImpl ctx (some q) isInitialFill p proposedSum = .ok []) ∧
    (∀ (ctx : Ctx) (q : Int) (holder : String)
        (adjustedQuantity proposedSum : ℚ), 0 < q → ctx.isBuy ≠ some false →
      copySellImpl ctx (some q) holder adjustedQuantity proposedSum = .ok []) := by
  constructor
  · intro ctx q isInitialFill p proposedSum hq hbuy
    simp [copyBuyImpl, jsIntLe0, not_le.mpr hq, hbuy]
  · intro ctx q holder adjustedQuantity proposedSum hq hsell
    simp [copySellImpl, jsIntLe0, not_le.mpr hq, hsell]

/-- C10 witness: both silent returns at a concrete context whose portfolio
is absent and whose direction flag is absent. -/
theorem c10_direction_mismatch_silent_witness :
    copyBuyImpl sampleNoDirectionCtx (some 7) false none 0 = .ok [] ∧
    copySellImpl sampleNoDirectionCtx (some 7) "0xH" 0 0 = .ok [] := by
  exact ⟨c10_direction_mismatch_silent.1 sampleNoDirectionCtx 7 false none 0
      (by decide) (by decide),
    c10_direction_mismatch_silent.2 sampleNoDirectionCtx 7 "0xH" 0 0
      (by decide) (by decide)⟩

/-- C7: for a copied position of original quantity 7,
`calculateInitialPositions` computes quantity 1 under copy strategy `min`,
`Math.ceil(7/2) = 4` under `mid`, and 7 under `all` (for any chain-price
oracle and any gamer address). -/
theorem c7_copy_strategy_sizing :
    ∀ (getBuyPriceWei : String → JsNum → ℚ) (weiToEthers : ℚ → ℚ)
      (g : String),
      calculateInitialPositions getBuyPriceWei weiToEthers [(g, 7)] "min" =
        .ok ([(g, some 1, weiToEthers (getBuyPriceWei g (some 1)))], some 1,
          getBuyPriceWei g (some 1),
          weiToEthers (getBuyPriceWei g (some 1))) ∧
      calculateInitialPositions getBuyPriceWei weiToEthers [(g, 7)] "mid" =
        .ok ([(g, some 4, weiToEthers (getBuyPriceWei g (some 4)))], some 4,
          getBuyPriceWei g (some 4),
          weiToEthers (getBuyPriceWei g (some 4))) ∧
      calculateInitialPositions getBuyPriceWei weiToEthers [(g, 7)] "all" =
        .ok ([(g, some 7, weiToEthers (getBuyPriceWei g (some 7)))], some 7,
          getBuyPriceWei g (some 7),
          weiToEthers (getBuyPriceWei g (some 7))) := by
  intro getBuyPriceWei weiToEthers g
  have hceil : ⌈(7 : ℚ) / 2⌉ = 4 := by
    rw [Int.ceil_eq_iff] ; norm_num
  refine ⟨?_, ?_, ?_⟩ <;>
    simp [calculateInitialPositions, jsNumAdd, hceil]

/-- The hash-guarded append is idempotent for any hash function: a second
application with the same new rule finds the just-appended rule's own hash
and leaves the list unchanged. -/
theorem appendRuleIfHashAbsent_idem (keccak : String → String)
    (rules : List TradeRule) (newRule : TradeRule) :
    appendRuleIfHashAbsent keccak (appendRuleIfHashAbsent keccak rules newRule)
        newRule =
      appendRuleIfHashAbsent keccak rules newRule := by
  unfold appendRuleIfHashAbsent
  by_cases h : rules.any
      (fun r => keccak (serializeRule r) = keccak (serializeRule newRule))
  · simp [h]
  · simp [h]

/-- C8: the copy-trade setup appends its generated `copyTradeBuy` and
`copyTradeSell` rules only when no existing rule with an equal content hash
is already present, and performing the append step a second time with the
same portfolio name leaves both rule lists unchanged. -/
theorem c8_rule_append_idempotent :
    (∀ (keccak : String → String) (rules : List TradeRule)
        (newRule : TradeRule),
      ((∀ r ∈ rules,
          keccak (serializeRule r) ≠ keccak (serializeRule newRule)) →
        appendRuleIfHashAbsent keccak rules newRule = rules ++ [newRule]) ∧
      ((∃ r ∈ rules,
          keccak (serializeRule r) = keccak (serializeRule newRule)) →
        appendRuleIfHashAbsent keccak rules newRule = rules)) ∧
    (∀ (keccak : String → String) (portfolioName : String)
        (ruleLists : List TradeRule × List TradeRule),
      appendCopyTradeRules keccak portfolioName
          (appendCopyTradeRules keccak portfolioName ruleLists) =
        appendCopyTradeRules keccak portfolioName ruleLists) := by
  constructor
  · intro keccak rules newRule
    constructor
    · intro h
      have hany : rules.any
          (fun r => keccak (serializeRule r) = keccak (serializeRule newRule))
            = false := by
        simp only [List.any_eq_false, decide_eq_true_eq]
        exact h
      simp [appendRuleIfHashAbsent, hany]
    · intro h
      have hany : rules.any
          (fun r => keccak (serializeRule r) = keccak (serializeRule newRule))
            = true := by
        simp only [List.any_eq_true, decide_eq_true_eq]
        exact h
      simp [appendRuleIfHashAbsent, hany]
  · intro keccak portfolioName ruleLists
    unfold appendCopyTradeRules
    simp [appendRuleIfHashAbsent_idem]

/-- C8 witness: append into an empty list adds the rule, append over a list
already holding a same-hash rule is the identity, and the double append step
equals the single one, at the identity hash and portfolio name `p`. -/
theorem c8_rule_append_idempotent_witness :
    appendRuleIfHashAbsent (fun s => s) [] (copyBuyRule "p") =
      [] ++ [copyBuyRule "p"] ∧
    appendRuleIfHashAbsent (fun s => s) [copyBuyRule "p"] (copyBuyRule "p") =
      [copyBuyRule "p"] ∧
    appendCopyTradeRules (fun s => s) "p"
        (appendCopyTradeRules (fun s => s) "p" ([], [])) =
      appendCopyTradeRules (fun s => s) "p" ([], []) := by
  refine ⟨(c8_rule_append_idempotent.1 (fun s => s) [] (copyBuyRule "p")).1
      (by simp),
    (c8_rule_append_idempotent.1 (fun s => s) [copyBuyRule "p"]
        (copyBuyRule "p")).2 ⟨copyBuyRule "p", by simp, rfl⟩,
    c8_rule_append_idempotent.2 (fun s => s) "p" ([], [])⟩

/-- Membership in the fold that collects every existing portfolio's fleet
addresses. -/
theorem mem_foldl_append_keyFleet (l : List Portfolio) (init : List String)
    (a : String) :
    a ∈ l.foldl (fun acc entry => acc ++ entry.keyFleet) init ↔
      a ∈ init ∨ ∃ e ∈ l, a ∈ e.keyFleet := by
  induction l generalizing init with
  | nil => simp
  | cons e l ih =>
    simp only [List.foldl_cons, ih, List.mem_append, List.mem_cons]
    constructor
    · rintro (⟨h | h⟩ | ⟨e', he', ha⟩)
      · exact Or.inl h
      · exact Or.inr ⟨e, Or.inl rfl, h⟩
      · exact Or.inr ⟨e', Or.inr he', ha⟩
    · rintro (h | ⟨e', he' | he', ha⟩)
      · exact Or.inl (Or.inl h)
      · exact Or.inl (Or.inr (he' ▸ ha))
      · exact Or.inr ⟨e', he', ha⟩

/-- A list equals its deduplication in length exactly when it has no
duplicates. -/
theorem dedup_length_eq_iff_nodup (l : List String) :
    l.dedup.length = l.length ↔ l.Nodup := by
  constructor
  · intro h
    have := (List.dedup_sublist l).eq_of_length h
    rw [← this]
    exact l.nodup_dedup
  · intro h
    rw [List.dedup_eq_self.mpr h]

/-- `areAddressesUnique` succeeds exactly when the entered fleet list has no
internal duplicate and none of its addresses appears in any existing
portfolio's key fleet. -/
theorem areAddressesUnique_iff (keyFleet : List String)
    (existingData : List Portfolio) :
    areAddressesUnique keyFleet existingData = true ↔
      keyFleet.Nodup ∧
        ∀ a ∈ keyFleet, ∀ e ∈ existingData, a ∉ e.keyFleet := by
  unfold areAddressesUnique
  by_cases hd : keyFleet.dedup.length = keyFleet.length
  · have hnodup := (dedup_length_eq_iff_nodup keyFleet).mp hd
    simp only [hd, ne_eq, not_true_eq_false, if_false, ite_not]
    by_cases hany : keyFleet.any (fun address =>
        decide (address ∈ List.foldl (fun acc entry => acc ++ entry.keyFleet)
          [] existingData)) = true
    · simp only [hany, if_true]
      rw [List.any_eq_true] at hany
      obtain ⟨a, ha, hmem⟩ := hany
      rw [decide_eq_true_eq, mem_foldl_append_keyFleet] at hmem
      rcases hmem with h | ⟨e, he, hae⟩
      · simp at h
      · constructor
        · intro hfalse
          exact absurd hfalse (by simp)
        · rintro ⟨-, hall⟩
          exact absurd hae (hall a ha e he)
    · rw [Bool.not_eq_true] at hany
      simp only [hany, if_false]
      constructor
      · intro _
        refine ⟨hnodup, ?_⟩
        intro a ha e he hae
        rw [List.any_eq_false] at hany
        have := hany a ha
        rw [decide_eq_true_eq, mem_foldl_append_keyFleet] at this
        exact this (Or.inr ⟨e, he, hae⟩)
      · intro _
        rfl
  · simp only [hd, ne_eq, not_false_eq_true, if_true]
    constructor
    · intro hfalse
      exact absurd hfalse (by simp)
    · rintro ⟨hnodup, -⟩
      exact absurd ((dedup_length_eq_iff_nodup keyFleet).mpr hnodup) hd

/-- C9: if the entered fleet addresses fail the uniqueness check (an
internal duplicate or an address already in some existing portfolio's key
fleet), the setup run exits non-zero carrying no written state; a portfolio
entry is written (`awaitAck` or `doneNone` outcome) only when the check
passed; and the check passes exactly when every entered address is globally
unique. -/
theorem c9_wallet_uniqueness_enforced_at_write :
    (∀ (keccak : String → String) (getBuyPriceWei : String → JsNum → ℚ)
        (weiToEthers : ℚ → ℚ) (inp : SetupPrompts)
        (existingPortfolioData : List Portfolio) (storeHasPositions : Bool)
        (copiedTraderPositions : List (String × ℚ))
        (buyRules sellRules : List TradeRule),
      areAddressesUnique inp.keyFleet existingPortfolioData = false →
      setupCopyTradePortfolio keccak getBuyPriceWei weiToEthers inp
          existingPortfolioData storeHasPositions copiedTraderPositions
          buyRules sellRules = .exitDuplicateAddresses) ∧
    (∀ (keccak : String → String) (getBuyPriceWei : String → JsNum → ℚ)
        (weiToEthers : ℚ → ℚ) (inp : SetupPrompts)
        (existingPortfolioData : List Portfolio) (storeHasPositions : Bool)
        (copiedTraderPositions : List (String × ℚ))
        (buyRules sellRules : List TradeRule)
        (cfg : List Portfolio) (nb ns : List TradeRule),
      (setupCopyTradePortfolio keccak getBuyPriceWei weiToEthers inp
          existingPortfolioData storeHasPositions copiedTraderPositions
          buyRules sellRules = .awaitAck cfg nb ns ∨
        setupCopyTradePortfolio keccak getBuyPriceWei weiToEthers inp
          existingPortfolioData storeHasPositions copiedTraderPositions
          buyRules sellRules = .doneNone cfg) →
      areAddressesUnique inp.keyFleet existingPortfolioData = true) ∧
    (∀ (keyFleet : List String) (existingData : List Portfolio),
      areAddressesUnique keyFleet existingData = true ↔
        keyFleet.Nodup ∧
          ∀ a ∈ keyFleet, ∀ e ∈ existingData, a ∉ e.keyFleet) := by
  refine ⟨?_, ?_, areAddressesUnique_iff⟩
  · intro keccak getBuyPriceWei weiToEthers inp existingPortfolioData
      storeHasPositions copiedTraderPositions buyRules sellRules h
    simp [setupCopyTradePortfolio, h]
  · intro keccak getBuyPriceWei weiToEthers inp existingPortfolioData
      storeHasPositions copiedTraderPositions buyRules sellRules cfg nb ns h
    by_cases hu : areAddressesUnique inp.keyFleet existingPortfolioData = true
    · exact hu
    · rw [Bool.not_eq_true] at hu
      rcases h with h | h <;> simp [setupCopyTradePortfolio, hu] at h

/-- Prompt answers whose entered fleet list contains a duplicate address. -/
def sampleDupPrompts : SetupPrompts where
  portfolioName := "p"
  keyFleet := ["0xA", "0xA"]
  copiedTraderAddress := "0xT"
  copyTradeStrategy := "none"
  stopLossPercent := 5

/-- Prompt answers choosing the `none` strategy with one fleet address. -/
def sampleNonePrompts : SetupPrompts where
  portfolioName := "p"
  keyFleet := ["0xA"]
  copiedTraderAddress := "0xT"
  copyTradeStrategy := "none"
  stopLossPercent := 5

/-- The portfolio entry a `none`-strategy run of the setup writes for
`sampleNonePrompts`. -/
def sampleNonePortfolio : Portfolio where
  portfolioName := "p"
  keyFleet := ["0xA"]
  copiedTraderAddress := "0xT"
  newPortfolioInitialPositions := none
  initialPortfolioValuationWei := none
  initialPortfolioValuationEthers := none
  stopLossPercent := none
  copyTradeStrategy := "none"

/-- C9 witness: a duplicated fleet address makes a concrete run exit
non-zero without writes; a concrete run that writes passed the uniqueness
check; and the characterization at a concrete list. -/
theorem c9_wallet_uniqueness_enforced_at_write_witness :
    setupCopyTradePortfolio (fun s => s) (fun _ _ => 0) (fun x => x)
        sampleDupPrompts [] true [] [] [] = .exitDuplicateAddresses ∧
    areAddressesUnique sampleNonePrompts.keyFleet [] = true ∧
    (areAddressesUnique ["0xA", "0xA"] [] = true ↔
      ["0xA", "0xA"].Nodup ∧
        ∀ a ∈ ["0xA", "0xA"], ∀ e ∈ ([] : List Portfolio), a ∉ e.keyFleet) := by
  refine ⟨c9_wallet_uniqueness_enforced_at_write.1 (fun s => s) (fun _ _ => 0)
      (fun x => x) sampleDupPrompts [] true [] [] [] (by decide),
    c9_wallet_uniqueness_enforced_at_write.2.1 (fun s => s) (fun _ _ => 0)
      (fun x => x) sampleNonePrompts [] true [] [] [] [sampleNonePortfolio]
      [] [] (Or.inr (by decide)),
    c9_wallet_uniqueness_enforced_at_write.2.2 ["0xA", "0xA"] []⟩

end Bithoven
